import Mathlib

/-!
Verification development for the FORScan Python integration layer
(`forscan/adapters.py`, `forscan/core.py`, `forscan/diagnostics.py`,
`forscan/config.py`).

The Python classes are shallowly embedded: each class becomes a Lean
structure, each method a pure function that takes the object state (and,
where the method touches the outside world, an explicit oracle for that
interaction) and returns the result together with the updated state.
Python exceptions are modelled by explicit result constructors, and the
possibly non-terminating ELM327 read loop by an `Option`-shaped result.
-/

/-! ## Serial channel model

A `SerialPort` stands for the `serial.Serial` handle: `input` is the byte
stream the device will deliver to `read`/`readline`, `written` is the log
of byte strings passed to `write` (most recent last).  Bytes are modelled
as `Char` since the Python code decodes every byte to text immediately.
-/

structure SerialPort where
  input : List Char
  written : List String := []
  deriving Repr, DecidableEq

/-- Python exceptions that the adapter layer raises explicitly. -/
inductive PyExc where
  | connectionError (msg : String)
  deriving Repr, DecidableEq

/-- Result of one `send_command` call.  `raises` means the exception
escaped to the caller with the object state unchanged (the code raises
before any mutation); `diverges` means the byte-reading loop never
terminates because the terminator never arrives. -/
inductive SendResult (σ : Type) where
  | raises (e : PyExc)
  | diverges
  | ok (response : String) (s : σ)
  deriving Repr, DecidableEq

/-- Result of running an initialization command sequence: an exception
escapes with the state it left behind, or the whole sequence runs. -/
inductive InitResult (σ : Type) where
  | raises (e : PyExc) (s : σ)
  | diverges
  | ok (s : σ)
  deriving Repr, DecidableEq

/-- Whitespace in the sense of Python `str.strip()` (the ASCII part;
the code only ever strips serial-port echo around ASCII responses). -/
def isPyWhitespace (c : Char) : Bool :=
  c = ' ' || c = '\t' || c = '\n' || c = '\r' || c = '\x0b' || c = '\x0c'

/-- Python `str.strip()`: drop leading and trailing whitespace. -/
def pyStrip (s : String) : String :=
  String.mk (((s.data.dropWhile isPyWhitespace).reverse.dropWhile
    isPyWhitespace).reverse)

/-- The ELM327 read loop: consume characters until the first prompt
character `'>'` (which is discarded), returning the accumulated
characters and the unconsumed remainder.  `none` models the case where
no prompt ever arrives, in which the Python `while True` loop never
terminates (`read(1)` on timeout yields the empty string forever). -/
def readUntilPrompt : List Char → Option (List Char × List Char)
  | [] => none
  | c :: rest =>
      if c = '>' then some ([], rest)
      else
        match readUntilPrompt rest with
        | none => none
        | some (resp, rem) => some (c :: resp, rem)

/-- The pyserial `readline()` call: consume characters up to and
including the first newline; on timeout (stream exhausted with no
newline) it returns whatever was read.  Returns the line and the
unconsumed remainder. -/
def serialReadline : List Char → List Char × List Char
  | [] => ([], [])
  | c :: rest =>
      if c = '\n' then ([c], rest)
      else
        let p := serialReadline rest
        (c :: p.1, p.2)

/-! ## ELM327Adapter -/

/-- State of an `ELM327Adapter` object (`adapters.py`).  `connection`
is `none` while no serial handle has been stored. -/
structure ELM327Adapter where
  port : String
  baudrate : Int
  connection : Option SerialPort := none
  connected : Bool := false
  protocol : String := "AUTO"
  deriving Repr, DecidableEq

/-- The `ELM327Adapter.__init__` constructor (default baudrate 38400). -/
def ELM327Adapter.init (port : String) (baudrate : Int := 38400) :
    ELM327Adapter :=
  { port := port, baudrate := baudrate }

/-- Embeds `ELM327Adapter.send_command`.  Raises `ConnectionError` when
the adapter is not connected or has no stored handle; otherwise writes
the command followed by a carriage return and reads characters until the
`'>'` prompt, returning the accumulated text stripped.  (The inner
`try/except` of the Python method catches I/O errors of the handle
itself, which this pure channel model cannot produce.) -/
def ELM327Adapter.send_command (a : ELM327Adapter) (command : String) :
    SendResult ELM327Adapter :=
  if !a.connected then
    .raises (.connectionError "Not connected to ELM327")
  else
    match a.connection with
    | none => .raises (.connectionError "Not connected to ELM327")
    | some conn =>
        let conn := { conn with written := conn.written ++ [command ++ "\r"] }
        match readUntilPrompt conn.input with
        | none => .diverges
        | some (resp, rem) =>
            .ok (pyStrip (String.mk resp))
              { a with connection := some { conn with input := rem } }

/-- The fixed initialization command list of `_initialize_elm327`. -/
def elm327InitCommands : List String :=
  ["ATZ", "ATE0", "ATL0", "ATS0", "ATH1", "ATSP0"]

/-- Runs a list of commands through `ELM327Adapter.send_command` in
order, propagating an escaping exception together with the state it was
raised from (the raising call leaves the state unchanged). -/
def ELM327Adapter.sendAll (a : ELM327Adapter) :
    List String → InitResult ELM327Adapter
  | [] => .ok a
  | cmd :: rest =>
      match a.send_command cmd with
      | .raises e => .raises e a
      | .diverges => .diverges
      | .ok _ a1 => a1.sendAll rest

/-- Embeds `ELM327Adapter._initialize_elm327`: sends the six setup
commands in sequence (the `time.sleep(0.1)` between them has no
observable effect in this model). -/
def ELM327Adapter.initialize_elm327 (a : ELM327Adapter) :
    InitResult ELM327Adapter :=
  a.sendAll elm327InitCommands

/-- Embeds `ELM327Adapter.connect`.  `openResult` is the outcome of the
`serial.Serial(...)` constructor: `none` when it raised (channel
failure), `some conn` when it produced a handle.  The method stores the
handle, runs `_initialize_elm327`, then sets `connected` and returns
`True`; any exception on the way is caught and turned into `False`.
The outer `none` models the (never reached) case where initialization
diverges and `connect` never returns. -/
def ELM327Adapter.connect (a : ELM327Adapter)
    (openResult : Option SerialPort) : Option (Bool × ELM327Adapter) :=
  match openResult with
  | none => some (false, a)
  | some conn =>
      let a1 := { a with connection := some conn }
      match a1.initialize_elm327 with
      | .raises _ s => some (false, s)
      | .diverges => none
      | .ok s => some (true, { s with connected := true })

/-- Embeds `ELM327Adapter.disconnect` (the handle model is always
"open", so the guard reduces to having a stored handle). -/
def ELM327Adapter.disconnect (a : ELM327Adapter) : ELM327Adapter :=
  match a.connection with
  | some _ => { a with connected := false }
  | none => a

/-! ## J2534Adapter -/

/-- State of a `J2534Adapter` object.  It does not use a serial port;
its "handle" is the pair of placeholder device/channel identifiers. -/
structure J2534Adapter where
  device_name : String
  device_id : Option Int := none
  channel_id : Option Int := none
  connected : Bool := false
  deriving Repr, DecidableEq

/-- The `J2534Adapter.__init__` constructor. -/
def J2534Adapter.init (device_name : String := "") : J2534Adapter :=
  { device_name := device_name }

/-- Embeds `J2534Adapter.connect`: the placeholder body cannot fail; it
stores the placeholder identifiers and sets `connected`. -/
def J2534Adapter.connect (a : J2534Adapter) : Bool × J2534Adapter :=
  (true, { a with device_id := some 1, channel_id := some 1,
                  connected := true })

/-- Embeds `J2534Adapter.send_command`: raises `ConnectionError` when
not connected, otherwise returns the placeholder response `"OK"`. -/
def J2534Adapter.send_command (a : J2534Adapter) (_command : String) :
    SendResult J2534Adapter :=
  if !a.connected then
    .raises (.connectionError "Not connected to J2534 device")
  else
    .ok "OK" a

/-! ## STNAdapter -/

/-- State of an `STNAdapter` object (default baudrate 115200). -/
structure STNAdapter where
  port : String
  baudrate : Int
  connection : Option SerialPort := none
  connected : Bool := false
  deriving Repr, DecidableEq

/-- The `STNAdapter.__init__` constructor. -/
def STNAdapter.init (port : String) (baudrate : Int := 115200) :
    STNAdapter :=
  { port := port, baudrate := baudrate }

/-- Embeds `STNAdapter.send_command`: raises `ConnectionError` when not
connected or without a handle; otherwise writes the command followed by
a carriage return, reads one line via `readline()` and returns it
stripped. -/
def STNAdapter.send_command (a : STNAdapter) (command : String) :
    SendResult STNAdapter :=
  if !a.connected then
    .raises (.connectionError "Not connected to STN")
  else
    match a.connection with
    | none => .raises (.connectionError "Not connected to STN")
    | some conn =>
        let conn := { conn with written := conn.written ++ [command ++ "\r"] }
        let p := serialReadline conn.input
        .ok (pyStrip (String.mk p.1))
          { a with connection := some { conn with input := p.2 } }

/-- The fixed initialization command list of `_initialize_stn`. -/
def stnInitCommands : List String := ["STZ", "STE0", "STL0", "STSP0"]

/-- Runs a list of commands through `STNAdapter.send_command` in order,
propagating an escaping exception with the state it was raised from. -/
def STNAdapter.sendAll (a : STNAdapter) :
    List String → InitResult STNAdapter
  | [] => .ok a
  | cmd :: rest =>
      match a.send_command cmd with
      | .raises e => .raises e a
      | .diverges => .diverges
      | .ok _ a1 => a1.sendAll rest

/-- Embeds `STNAdapter._initialize_stn`. -/
def STNAdapter.initialize_stn (a : STNAdapter) : InitResult STNAdapter :=
  a.sendAll stnInitCommands

/-- Embeds `STNAdapter.connect`, with the same shape as
`ELM327Adapter.connect`. -/
def STNAdapter.connect (a : STNAdapter)
    (openResult : Option SerialPort) : Option (Bool × STNAdapter) :=
  match openResult with
  | none => some (false, a)
  | some conn =>
      let a1 := { a with connection := some conn }
      match a1.initialize_stn with
      | .raises _ s => some (false, s)
      | .diverges => none
      | .ok s => some (true, { s with connected := true })

/-- Embeds `STNAdapter.disconnect`. -/
def STNAdapter.disconnect (a : STNAdapter) : STNAdapter :=
  match a.connection with
  | some _ => { a with connected := false }
  | none => a

/-! ## FORScanConnector (`core.py`) -/

/-- Raw DTC entry as delivered by the connector (`{"code": ..,
"description": ..}`). -/
structure DTCEntry where
  code : String
  description : String
  deriving Repr, DecidableEq

/-- The dictionary returned by `FORScanConnector.read_dtcs`: either the
empty dict `{}` (not connected) or a dict with `"dtcs"` and `"count"`
keys. -/
inductive DtcDict where
  | empty
  | withDtcs (dtcs : List DTCEntry) (count : Nat)
  deriving Repr, DecidableEq

/-- Models `dtc_data.get("dtcs", [])` on the dictionary. -/
def DtcDict.getDtcs : DtcDict → List DTCEntry
  | .empty => []
  | .withDtcs dtcs _ => dtcs

/-- State of a `FORScanConnector` object.  The `config` dict and
`vehicle_info` field play no part in the claims and are omitted. -/
structure FORScanConnector where
  connected : Bool := false
  deriving Repr, DecidableEq

/-- Embeds `FORScanConnector.read_dtcs`: returns `{}` when not
connected, otherwise the hard-coded two-entry fixture. -/
def FORScanConnector.read_dtcs (c : FORScanConnector) : DtcDict :=
  if !c.connected then .empty
  else
    .withDtcs
      [ { code := "P0300",
          description := "Random/Multiple Cylinder Misfire Detected" },
        { code := "B1234", description := "Example Body Code" } ] 2

/-- Embeds `FORScanConnector.clear_dtcs`: `False` when not connected,
otherwise the placeholder success `True`. -/
def FORScanConnector.clear_dtcs (c : FORScanConnector) : Bool :=
  if !c.connected then false else true

/-! ## DiagnosticSession (`diagnostics.py`)

Timestamps: `datetime.now()` is modelled by an explicit `now : Nat`
argument to the methods that read the clock. -/

/-- A typed `DiagnosticTroubleCode` record.  `freeze_frame` is omitted:
no code path in the repository ever sets it (it stays `None`). -/
structure DiagnosticTroubleCode where
  code : String
  description : String
  status : String
  timestamp : Option Nat := none
  deriving Repr, DecidableEq

/-- A `LiveDataParameter` record.  Values are numeric fixtures, modelled
as rationals. -/
structure LiveDataParameter where
  pid : String
  name : String
  value : Rat
  unit : String
  min_value : Option Rat := none
  max_value : Option Rat := none
  deriving Repr, DecidableEq

/-- State of a `DiagnosticSession` object.  `live_data` is the
session's pid-keyed dictionary, modelled as an association list in
insertion order. -/
structure DiagnosticSession where
  connector : FORScanConnector
  session_active : Bool := false
  start_time : Option Nat := none
  dtcs : List DiagnosticTroubleCode := []
  live_data : List (String × LiveDataParameter) := []
  deriving Repr, DecidableEq

/-- The `DiagnosticSession.__init__` constructor. -/
def DiagnosticSession.init (connector : FORScanConnector) :
    DiagnosticSession :=
  { connector := connector }

/-- Embeds `DiagnosticSession.start_session`: fails unless the
connector is connected; on success records the start time and flips the
active flag.  (Nothing inside the Python `try` can raise, so the
`except` branch is dead.) -/
def DiagnosticSession.start_session (s : DiagnosticSession) (now : Nat) :
    Bool × DiagnosticSession :=
  if !s.connector.connected then (false, s)
  else (true, { s with session_active := true, start_time := some now })

/-- Embeds `DiagnosticSession.end_session`: when active, clears the
active flag and the start time (the duration is only logged); when
inactive, does nothing. -/
def DiagnosticSession.end_session (s : DiagnosticSession) :
    DiagnosticSession :=
  if s.session_active then
    { s with session_active := false, start_time := none }
  else s

/-- Embeds `DiagnosticSession.scan_dtcs`: returns `[]` when no session
is active; otherwise asks the connector for raw DTC data and rebuilds
the session's DTC list, tagging every entry `"ACTIVE"` with the current
timestamp.  Returns the new list and the updated session. -/
def DiagnosticSession.scan_dtcs (s : DiagnosticSession) (now : Nat) :
    List DiagnosticTroubleCode × DiagnosticSession :=
  if !s.session_active then ([], s)
  else
    let dtc_data := s.connector.read_dtcs
    let newDtcs := dtc_data.getDtcs.map fun d =>
      { code := d.code, description := d.description,
        status := "ACTIVE", timestamp := some now }
    (newDtcs, { s with dtcs := newDtcs })

/-- Embeds `DiagnosticSession.clear_dtcs`: `False` without an active
session; otherwise the connector outcome is returned, and exactly on
success the local DTC list is emptied. -/
def DiagnosticSession.clear_dtcs (s : DiagnosticSession) :
    Bool × DiagnosticSession :=
  if !s.session_active then (false, s)
  else
    let success := s.connector.clear_dtcs
    if success then (true, { s with dtcs := [] })
    else (success, s)

/-- Dictionary insertion with overwrite, in the key order Python dicts
preserve (first insertion position wins, value updated in place). -/
def dictInsert (d : List (String × LiveDataParameter))
    (k : String) (v : LiveDataParameter) :
    List (String × LiveDataParameter) :=
  if d.any (fun p => p.1 = k) then
    d.map fun p => if p.1 = k then (k, v) else p
  else d ++ [(k, v)]

/-- The fixture value stored for pid `"RPM"`. -/
def rpmFixture : LiveDataParameter :=
  { pid := "RPM", name := "Engine RPM", value := 750, unit := "rpm",
    min_value := some 0, max_value := some 8000 }

/-- The fixture value stored for pid `"SPEED"`. -/
def speedFixture : LiveDataParameter :=
  { pid := "SPEED", name := "Vehicle Speed", value := 0, unit := "mph",
    min_value := some 0, max_value := some 200 }

/-- Embeds `DiagnosticSession.read_live_data`: returns `{}` when no
session is active; otherwise stores fixture values for the recognized
pids `"RPM"` and `"SPEED"` (others are silently skipped) and returns
the session's live-data dictionary. -/
def DiagnosticSession.read_live_data (s : DiagnosticSession)
    (pids : List String) :
    List (String × LiveDataParameter) × DiagnosticSession :=
  if !s.session_active then ([], s)
  else
    let newData := pids.foldl
      (fun d pid =>
        if pid = "RPM" then dictInsert d pid rpmFixture
        else if pid = "SPEED" then dictInsert d pid speedFixture
        else d)
      s.live_data
    (newData, { s with live_data := newData })

/-- Embeds `DiagnosticSession.perform_service_procedure`: `False`
without an active session; otherwise dispatches on the procedure name
(`time.sleep` simulation has no observable effect), returning `False`
for unknown names. -/
def DiagnosticSession.perform_service_procedure (s : DiagnosticSession)
    (procedure_name : String) : Bool × DiagnosticSession :=
  if !s.session_active then (false, s)
  else if procedure_name = "DPF_REGEN" then (true, s)
  else if procedure_name = "OIL_RESET" then (true, s)
  else if procedure_name = "BMS_RESET" then (true, s)
  else (false, s)

/-! ## Config (`config.py`)

YAML scalar values are modelled by `YVal`; floats by rationals (PyYAML
dumps floats via `repr`, so the dump/load cycle on the scalar level is
exact and is modelled as the identity).  A section of the YAML file is
a string-keyed dictionary of scalars; the file has the three recognized
top-level sections, each optional. -/

/-- A YAML scalar value as seen by the config loader. -/
inductive YVal where
  | null
  | str (s : String)
  | int (n : Int)
  | float (q : Rat)
  | bool (b : Bool)
  deriving Repr, DecidableEq

/-- Python truthiness of a scalar (`if value:` / `x or default`). -/
def YVal.truthy : YVal → Bool
  | .null => false
  | .str s => s ≠ ""
  | .int n => n ≠ 0
  | .float q => q ≠ 0
  | .bool b => b

/-- Decimal rendering of a rational that stands for a Python float
(approximates `str(float)`; the claims never coerce a float to a
string, so only the shape matters). -/
def floatRepr (q : Rat) : String :=
  if q.den = 1 then toString q.num ++ ".0" else toString q

/-- Python `str(value)` on a YAML scalar. -/
def YVal.pyStr : YVal → String
  | .null => "None"
  | .str s => s
  | .int n => toString n
  | .float q => floatRepr q
  | .bool b => if b then "True" else "False"

/-- Python `int(value)` on a scalar, as `Option` (`none` = raises).
`int` of a float truncates toward zero; `int` of a string uses the
decimal parse (surrounding-whitespace tolerance is not modelled; the
claims never take this path). -/
def YVal.pyInt : YVal → Option Int
  | .null => none
  | .str s => s.toInt?
  | .int n => some n
  | .float q => some (q.num.tdiv (q.den : Int))
  | .bool b => some (if b then 1 else 0)

/-- Python `float(value)` on a scalar, as `Option` (`none` = raises).
String-to-float parsing is modelled only for decimal integers (the
claims never take this path). -/
def YVal.pyFloat : YVal → Option Rat
  | .null => none
  | .str s => (s.toInt?).map fun n => (n : Rat)
  | .int n => some (n : Rat)
  | .float q => some q
  | .bool b => some (if b then 1 else 0)

/-- One YAML mapping section, keyed by field name. -/
def YamlSection := List (String × YVal)

/-- Models `section.get(key)` (`None` when the key is absent). -/
def YamlSection.get (d : YamlSection) (k : String) : Option YVal :=
  (List.find? (fun p => p.1 = k) d).map (fun p => p.2)

/-- Models `section.get(key) or default` followed by nothing: the
stored value when present and truthy, the default otherwise. -/
def YamlSection.getOr (d : YamlSection) (k : String) (dflt : YVal) :
    YVal :=
  match d.get k with
  | none => dflt
  | some v => if v.truthy then v else dflt

/-- The parsed YAML config file: the three recognized top-level
sections, each present or absent.  Unrecognized top-level keys are
ignored by the loader and not modelled. -/
structure YamlFile where
  adapter : Option YamlSection := none
  logging : Option YamlSection := none
  forscan : Option YamlSection := none

/-- The `AdapterConfig` dataclass with its field defaults. -/
structure AdapterConfig where
  type : String := "ELM327"
  port : String := "COM1"
  baudrate : Int := 38400
  timeout : Rat := 2
  deriving Repr, DecidableEq

/-- The default logging format string. -/
def defaultLogFormat : String :=
  "%(asctime)s - %(name)s - %(levelname)s - %(message)s"

/-- The `LoggingConfig` dataclass with its field defaults. -/
structure LoggingConfig where
  level : String := "INFO"
  format : String := defaultLogFormat
  file : Option String := none
  deriving Repr, DecidableEq

/-- The `FORScanConfig` dataclass with its field defaults. -/
structure FORScanConfig where
  executable_path : Option String := none
  data_dir : String := "./data"
  config_dir : String := "./config"
  auto_connect : Bool := false
  deriving Repr, DecidableEq

/-- The three settings groups of a `Config` object (the stored
`config_file` path plays no part in the claims). -/
structure Config where
  adapter : AdapterConfig := {}
  logging : LoggingConfig := {}
  forscan : FORScanConfig := {}
  deriving Repr, DecidableEq

/-- Embeds `Config._safe_int`. -/
def Config.safe_int (value : Option YVal) (default : Int) : Int :=
  match value with
  | none => default
  | some .null => default
  | some v => (v.pyInt).getD default

/-- Embeds `Config._safe_float`. -/
def Config.safe_float (value : Option YVal) (default : Rat) : Rat :=
  match value with
  | none => default
  | some .null => default
  | some v => (v.pyFloat).getD default

/-- Embeds `Config._safe_bool`. -/
def Config.safe_bool (value : Option YVal) (default : Bool) : Bool :=
  match value with
  | none => default
  | some .null => default
  | some (.bool b) => b
  | some (.str s) =>
      s.toLower = "true" || s.toLower = "1" || s.toLower = "yes" ||
        s.toLower = "on"
  | some (.int n) => n ≠ 0
  | some (.float q) => q ≠ 0

/-- Embeds the `'adapter'` branch of `Config.load`. -/
def loadAdapterSection (d : YamlSection) : AdapterConfig :=
  { type := (d.getOr "type" (.str "ELM327")).pyStr,
    port := (d.getOr "port" (.str "COM1")).pyStr,
    baudrate := Config.safe_int (d.get "baudrate") 38400,
    timeout := Config.safe_float (d.get "timeout") 2 }

/-- Embeds the `'logging'` branch of `Config.load`
(`str(data['file']) if data.get('file') else None`). -/
def loadLoggingSection (d : YamlSection) : LoggingConfig :=
  { level := (d.getOr "level" (.str "INFO")).pyStr,
    format := (d.getOr "format" (.str defaultLogFormat)).pyStr,
    file :=
      match d.get "file" with
      | none => none
      | some v => if v.truthy then some v.pyStr else none }

/-- Embeds the `'forscan'` branch of `Config.load`. -/
def loadForscanSection (d : YamlSection) : FORScanConfig :=
  { executable_path :=
      match d.get "executable_path" with
      | none => none
      | some v => if v.truthy then some v.pyStr else none,
    data_dir := (d.getOr "data_dir" (.str "./data")).pyStr,
    config_dir := (d.getOr "config_dir" (.str "./config")).pyStr,
    auto_connect := Config.safe_bool (d.get "auto_connect") false }

/-- Embeds `Config.load`.  `file` is the parsed YAML document: `none`
when the file does not exist or parses to an empty/non-dict document
(both leave the config unchanged); otherwise each recognized section
that is present replaces the corresponding settings group wholesale. -/
def Config.load (c : Config) (file : Option YamlFile) : Config :=
  match file with
  | none => c
  | some f =>
      let c := match f.adapter with
        | some d => { c with adapter := loadAdapterSection d }
        | none => c
      let c := match f.logging with
        | some d => { c with logging := loadLoggingSection d }
        | none => c
      match f.forscan with
        | some d => { c with forscan := loadForscanSection d }
        | none => c

/-- Lifts an optional string field to the YAML scalar `asdict` +
`yaml.dump` produce for it. -/
def optStrVal : Option String → YVal
  | none => .null
  | some s => .str s

/-- Embeds `Config.save`: the written YAML document is
`{'adapter': asdict(adapter), 'logging': asdict(logging),
'forscan': asdict(forscan)}` (the dump/parse cycle on scalars is the
identity, see the section header). -/
def Config.save (c : Config) : YamlFile :=
  { adapter := some
      [("type", .str c.adapter.type),
       ("port", .str c.adapter.port),
       ("baudrate", .int c.adapter.baudrate),
       ("timeout", .float c.adapter.timeout)],
    logging := some
      [("level", .str c.logging.level),
       ("format", .str c.logging.format),
       ("file", optStrVal c.logging.file)],
    forscan := some
      [("executable_path", optStrVal c.forscan.executable_path),
       ("data_dir", .str c.forscan.data_dir),
       ("config_dir", .str c.forscan.config_dir),
       ("auto_connect", .bool c.forscan.auto_connect)] }

/-- The process environment as seen by `_apply_env_overrides`:
`os.getenv` yields `none` for an unset variable. -/
structure Env where
  adapterTypeVar : Option String := none
  adapterPortVar : Option String := none
  adapterBaudrateVar : Option String := none
  logLevelVar : Option String := none
  logFileVar : Option String := none
  executablePathVar : Option String := none
  dataDirVar : Option String := none
  configDirVar : Option String := none

/-- Models one `if os.getenv(NAME): override` step. -/
def envOverride (v : Option String) (app : String → Config → Config)
    (c : Config) : Config :=
  match v with
  | none => c
  | some s => if s ≠ "" then app s c else c

/-- Embeds `Config._apply_env_overrides`, in source order.  The
baudrate override parses the variable with `int(...)` and leaves the
value unchanged when parsing fails. -/
def Config.apply_env_overrides (c : Config) (env : Env) : Config :=
  let c := envOverride env.adapterTypeVar
    (fun s c => { c with adapter.type := s }) c
  let c := envOverride env.adapterPortVar
    (fun s c => { c with adapter.port := s }) c
  let c := envOverride env.adapterBaudrateVar
    (fun s c =>
      match s.toInt? with
      | some n => { c with adapter.baudrate := n }
      | none => c) c
  let c := envOverride env.logLevelVar
    (fun s c => { c with logging.level := s }) c
  let c := envOverride env.logFileVar
    (fun s c => { c with logging.file := some s }) c
  let c := envOverride env.executablePathVar
    (fun s c => { c with forscan.executable_path := some s }) c
  let c := envOverride env.dataDirVar
    (fun s c => { c with forscan.data_dir := s }) c
  envOverride env.configDirVar
    (fun s c => { c with forscan.config_dir := s }) c

/-- Embeds the `Config.__init__` pipeline: defaults, then `load`, then
`_apply_env_overrides`. -/
def Config.construct (file : Option YamlFile) (env : Env) : Config :=
  (Config.load {} file).apply_env_overrides env

/-! ## Helper lemmas and fixture abbreviations -/

/-- The typed DTC list `scan_dtcs` builds from the connector fixture
when connected, tagged with the scan-time timestamp. -/
def fixtureDtcs (now : Nat) : List DiagnosticTroubleCode :=
  [ { code := "P0300",
      description := "Random/Multiple Cylinder Misfire Detected",
      status := "ACTIVE", timestamp := some now },
    { code := "B1234", description := "Example Body Code",
      status := "ACTIVE", timestamp := some now } ]

/-- Boolean predicate for "not the ELM327 prompt character". -/
def notPromptChar (c : Char) : Bool := !(c = '>')

/-- When the prompt character does arrive, the ELM327 read loop
terminates and yields exactly the characters before the first prompt,
leaving the stream after it. -/
theorem readUntilPrompt_of_mem {l : List Char} (h : '>' ∈ l) :
    readUntilPrompt l =
      some (l.takeWhile notPromptChar, (l.dropWhile notPromptChar).tail) := by
  induction l with
  | nil => cases h
  | cons c rest ih =>
      by_cases hc : c = '>'
      · subst hc
        simp [readUntilPrompt, notPromptChar]
      · have hmem : '>' ∈ rest := by
          rcases List.mem_cons.mp h with h1 | h1
          · exact absurd h1.symm hc
          · exact h1
        simp [readUntilPrompt, hc, ih hmem, notPromptChar]

/-- On a freshly constructed ELM327 adapter, `connect` returns `False`
with the open outcome stored: the first initialization command raises
`ConnectionError` because `connected` is still false. -/
theorem elm327_fresh_connect (port : String) (baudrate : Int)
    (openResult : Option SerialPort) :
    (ELM327Adapter.init port baudrate).connect openResult =
      some (false,
        { ELM327Adapter.init port baudrate with connection := openResult }) := by
  cases openResult with
  | none => rfl
  | some conn =>
      simp [ELM327Adapter.connect, ELM327Adapter.initialize_elm327,
        ELM327Adapter.sendAll, elm327InitCommands,
        ELM327Adapter.send_command, ELM327Adapter.init]

/-- On a freshly constructed STN adapter, `connect` returns `False`
with the open outcome stored, for the same reason as for ELM327. -/
theorem stn_fresh_connect (port : String) (baudrate : Int)
    (openResult : Option SerialPort) :
    (STNAdapter.init port baudrate).connect openResult =
      some (false,
        { STNAdapter.init port baudrate with connection := openResult }) := by
  cases openResult with
  | none => rfl
  | some conn =>
      simp [STNAdapter.connect, STNAdapter.initialize_stn,
        STNAdapter.sendAll, stnInitCommands,
        STNAdapter.send_command, STNAdapter.init]

/-! ## Claims -/

/-- C2: for every port and baudrate (and every outcome of the serial
open), `ELM327Adapter.connect` and `STNAdapter.connect` on a freshly
constructed adapter return `False` and leave `connected = false`: the
initialization sequence calls `send_command` while `connected` is still
false, which raises `ConnectionError` and is caught by the handler in
`connect`; a successfully opened serial handle nevertheless remains
stored in `self.connection` (the final state's `connection` field is
exactly the open outcome). -/
theorem claim_C2_connect_always_fails (port : String) (baudrate : Int)
    (openResult : Option SerialPort) :
    (ELM327Adapter.init port baudrate).connect openResult =
      some (false,
        { ELM327Adapter.init port baudrate with connection := openResult }) ∧
    (STNAdapter.init port baudrate).connect openResult =
      some (false,
        { STNAdapter.init port baudrate with connection := openResult }) :=
  ⟨elm327_fresh_connect port baudrate openResult,
   stn_fresh_connect port baudrate openResult⟩

/-- C3: for every adapter variant, `connect` only ever returns a
boolean (its result type has no exception outcome: every raised
exception is caught inside), a channel-open failure yields `False` with
`connected` still false and the state otherwise untouched, and whenever
`connect` returns `True` the state has `connected = true` and the
communication handle stored (the serial handle for ELM327/STN, the
placeholder device/channel identifiers for J2534); the J2534 stub
always succeeds. -/
theorem claim_C3_connect_contract (port : String) (baudrate : Int)
    (device : String) (openResult : Option SerialPort) :
    ((ELM327Adapter.init port baudrate).connect none =
        some (false, ELM327Adapter.init port baudrate)) ∧
    (∀ b a1, (ELM327Adapter.init port baudrate).connect openResult =
        some (b, a1) →
      (b = false → a1.connected = false) ∧
      (b = true → a1.connected = true ∧ a1.connection ≠ none)) ∧
    ((STNAdapter.init port baudrate).connect none =
        some (false, STNAdapter.init port baudrate)) ∧
    (∀ b a1, (STNAdapter.init port baudrate).connect openResult =
        some (b, a1) →
      (b = false → a1.connected = false) ∧
      (b = true → a1.connected = true ∧ a1.connection ≠ none)) ∧
    ((J2534Adapter.init device).connect =
      (true, { J2534Adapter.init device with
                device_id := some 1, channel_id := some 1,
                connected := true })) := by
  refine ⟨?_, ?_, ?_, ?_, rfl⟩
  · simpa using elm327_fresh_connect port baudrate none
  · intro b a1 h
    rw [elm327_fresh_connect port baudrate openResult] at h
    obtain ⟨hb, ha⟩ := Prod.mk.injEq .. ▸ Option.some.injEq .. ▸ h
    subst hb
    subst ha
    exact ⟨fun _ => rfl, fun hh => by cases hh⟩
  · simpa using stn_fresh_connect port baudrate none
  · intro b a1 h
    rw [stn_fresh_connect port baudrate openResult] at h
    obtain ⟨hb, ha⟩ := Prod.mk.injEq .. ▸ Option.some.injEq .. ▸ h
    subst hb
    subst ha
    exact ⟨fun _ => rfl, fun hh => by cases hh⟩

/-- Witness for C3 at concrete inputs: the ELM327 channel-failure case,
a concrete failed-connect state with `connected = false`, and the J2534
success outcome. -/
theorem claim_C3_connect_contract_witness :
    ((ELM327Adapter.init "COM1" 38400).connect none =
        some (false, ELM327Adapter.init "COM1" 38400)) ∧
    (({ ELM327Adapter.init "COM1" 38400 with
          connection := some { input := [] } } : ELM327Adapter).connected
        = false) ∧
    ((J2534Adapter.init "Dev").connect =
      (true, { J2534Adapter.init "Dev" with
                device_id := some 1, channel_id := some 1,
                connected := true })) := by
  obtain ⟨h1, h2, _, _, h5⟩ :=
    claim_C3_connect_contract "COM1" 38400 "Dev" (some { input := [] })
  exact ⟨h1, (h2 false _ rfl).1 rfl, h5⟩

/-- C4: for all three adapter variants, calling `send_command` while
the adapter is not connected raises `ConnectionError` instead of
returning a response. -/
theorem claim_C4_send_disconnected (e : ELM327Adapter) (j : J2534Adapter)
    (st : STNAdapter) (cmd : String)
    (he : e.connected = false) (hj : j.connected = false)
    (hs : st.connected = false) :
    e.send_command cmd =
      .raises (.connectionError "Not connected to ELM327") ∧
    j.send_command cmd =
      .raises (.connectionError "Not connected to J2534 device") ∧
    st.send_command cmd =
      .raises (.connectionError "Not connected to STN") := by
  refine ⟨?_, ?_, ?_⟩ <;>
    simp [ELM327Adapter.send_command, J2534Adapter.send_command,
      STNAdapter.send_command, he, hj, hs]

/-- Witness for C4 on freshly constructed adapters. -/
theorem claim_C4_send_disconnected_witness :
    (ELM327Adapter.init "COM1").send_command "ATZ" =
      .raises (.connectionError "Not connected to ELM327") ∧
    (J2534Adapter.init "Dev").send_command "ATZ" =
      .raises (.connectionError "Not connected to J2534 device") ∧
    (STNAdapter.init "COM2").send_command "ATZ" =
      .raises (.connectionError "Not connected to STN") :=
  claim_C4_send_disconnected (ELM327Adapter.init "COM1")
    (J2534Adapter.init "Dev") (STNAdapter.init "COM2") "ATZ" rfl rfl rfl

/-- C10: `end_session` clears the active flag and the start time when a
session is active, does nothing when none is, and is idempotent:
calling it twice leaves the very state one call produces. -/
theorem claim_C10_end_session_idempotent (s : DiagnosticSession) :
    (s.session_active = true →
      s.end_session =
        { s with session_active := false, start_time := none }) ∧
    (s.session_active = false → s.end_session = s) ∧
    s.end_session.end_session = s.end_session := by
  unfold DiagnosticSession.end_session
  by_cases h : s.session_active <;> simp [h]

/-- Witness for C10: one active and one inactive concrete session. -/
theorem claim_C10_end_session_idempotent_witness :
    (({ connector := {}, session_active := true, start_time := some 5 } :
        DiagnosticSession).end_session =
      { connector := {}, session_active := false, start_time := none }) ∧
    (({ connector := {} } : DiagnosticSession).end_session =
      { connector := {} }) := by
  constructor
  · exact (claim_C10_end_session_idempotent
      { connector := {}, session_active := true, start_time := some 5 }).1 rfl
  · exact (claim_C10_end_session_idempotent { connector := {} }).2.1 rfl

/-- C1: on a fresh `DiagnosticSession` (before `start_session`),
`scan_dtcs` returns the empty list and the session's DTC set stays
empty; after a successful `start_session` over a connected connector it
returns exactly the two-code fixture (`P0300`, `B1234`), each tagged
`"ACTIVE"` with the scan timestamp; and on any active session over a
connected connector the scan replaces the previous DTC set with that
fixture. -/
theorem claim_C1_scan_dtcs (c : FORScanConnector) (s : DiagnosticSession)
    (now t0 t1 : Nat)
    (hactive : s.session_active = true)
    (hconn : s.connector.connected = true) :
    ((DiagnosticSession.init c).scan_dtcs now).1 = [] ∧
    ((DiagnosticSession.init c).scan_dtcs now).2.dtcs = [] ∧
    (c.connected = true →
      ((DiagnosticSession.init c).start_session t0).1 = true ∧
      ((((DiagnosticSession.init c).start_session t0).2.scan_dtcs t1).1 =
        fixtureDtcs t1)) ∧
    s.scan_dtcs now = (fixtureDtcs now, { s with dtcs := fixtureDtcs now }) := by
  refine ⟨rfl, rfl, ?_, ?_⟩
  · intro hc
    constructor
    · simp [DiagnosticSession.start_session, DiagnosticSession.init, hc]
    · simp [DiagnosticSession.start_session, DiagnosticSession.init, hc,
        DiagnosticSession.scan_dtcs, FORScanConnector.read_dtcs,
        DtcDict.getDtcs, fixtureDtcs]
  · simp [DiagnosticSession.scan_dtcs, hactive, hconn,
      FORScanConnector.read_dtcs, DtcDict.getDtcs, fixtureDtcs]

/-- Witness for C1: a connected connector, a fresh session, and an
active session carrying a stale DTC entry that the scan replaces. -/
theorem claim_C1_scan_dtcs_witness :
    ((DiagnosticSession.init { connected := true }).scan_dtcs 3).1 = [] ∧
    ((({ connector := { connected := true }, session_active := true,
          dtcs := [{ code := "U0000", description := "stale",
                     status := "STORED" }] } :
        DiagnosticSession).scan_dtcs 7) =
      (fixtureDtcs 7,
        { connector := { connected := true }, session_active := true,
          dtcs := fixtureDtcs 7 })) := by
  constructor
  · exact (claim_C1_scan_dtcs { connected := true }
      { connector := { connected := true }, session_active := true }
      3 0 0 rfl rfl).1
  · exact (claim_C1_scan_dtcs { connected := true }
      { connector := { connected := true }, session_active := true,
        dtcs := [{ code := "U0000", description := "stale",
                   status := "STORED" }] }
      7 0 0 rfl rfl).2.2.2

/-- C5: DTC, live-data and service-procedure operations are no-ops
returning an empty or false result while the session is inactive; the
active flag can only be raised by `start_session`, and only while the
connector reports connected (otherwise `start_session` returns `False`
with the state unchanged — hence a repeated call fails identically);
no other operation ever raises the flag. -/
theorem claim_C5_session_invariant (s : DiagnosticSession) (now : Nat)
    (pids : List String) (name : String) :
    (s.session_active = false →
      s.scan_dtcs now = ([], s) ∧
      s.clear_dtcs = (false, s) ∧
      s.read_live_data pids = ([], s) ∧
      s.perform_service_procedure name = (false, s)) ∧
    (s.connector.connected = false →
      s.start_session now = (false, s) ∧
      ((s.start_session now).2.start_session now =
        (false, (s.start_session now).2))) ∧
    (s.connector.connected = true →
      s.start_session now =
        (true, { s with session_active := true, start_time := some now })) ∧
    ((s.scan_dtcs now).2.session_active = s.session_active ∧
     s.clear_dtcs.2.session_active = s.session_active ∧
     (s.read_live_data pids).2.session_active = s.session_active ∧
     (s.perform_service_procedure name).2.session_active =
       s.session_active ∧
     s.end_session.session_active = false) := by
  refine ⟨?_, ?_, ?_, ?_, ?_, ?_, ?_, ?_⟩
  · intro h
    refine ⟨?_, ?_, ?_, ?_⟩ <;>
      simp [DiagnosticSession.scan_dtcs, DiagnosticSession.clear_dtcs,
        DiagnosticSession.read_live_data,
        DiagnosticSession.perform_service_procedure, h]
  · intro h
    constructor <;> simp [DiagnosticSession.start_session, h]
  · intro h
    simp [DiagnosticSession.start_session, h]
  · by_cases h : s.session_active <;>
      simp [DiagnosticSession.scan_dtcs, h]
  · by_cases h : s.session_active <;> by_cases hc : s.connector.clear_dtcs <;>
      simp [DiagnosticSession.clear_dtcs, h, hc]
  · by_cases h : s.session_active <;>
      simp [DiagnosticSession.read_live_data, h]
  · unfold DiagnosticSession.perform_service_procedure
    repeat' split
    all_goals rfl
  · by_cases h : s.session_active <;>
      simp [DiagnosticSession.end_session, h]

/-- Witness for C5: a fresh session over a disconnected connector
(operations are no-ops, `start_session` fails leaving the state
unchanged) and one over a connected connector (`start_session`
succeeds). -/
theorem claim_C5_session_invariant_witness :
    (({ connector := {} } : DiagnosticSession).scan_dtcs 1 =
      ([], { connector := {} })) ∧
    (({ connector := {} } : DiagnosticSession).start_session 1 =
      (false, { connector := {} })) ∧
    (({ connector := { connected := true } } :
        DiagnosticSession).start_session 2 =
      (true, { connector := { connected := true }, session_active := true,
               start_time := some 2 })) := by
  refine ⟨?_, ?_, ?_⟩
  · exact ((claim_C5_session_invariant { connector := {} } 1 [] "X").1
      rfl).1
  · exact ((claim_C5_session_invariant { connector := {} } 1 [] "X").2.1
      rfl).1
  · exact (claim_C5_session_invariant { connector := { connected := true } }
      2 [] "X").2.2.1 rfl

/-- C6: `clear_dtcs` without an active session returns `False` with the
state untouched, whatever the connector's state (the quantification
over all sessions shows the result never depends on the connector, which
is not consulted); with an active session it returns the connector-level
outcome, and exactly on success the local DTC set is emptied — on
connector failure it is unchanged. -/
theorem claim_C6_clear_dtcs (s : DiagnosticSession) :
    (s.session_active = false → s.clear_dtcs = (false, s)) ∧
    (s.session_active = true →
      s.clear_dtcs.1 = s.connector.clear_dtcs ∧
      (s.connector.clear_dtcs = true →
        s.clear_dtcs = (true, { s with dtcs := [] })) ∧
      (s.connector.clear_dtcs = false → s.clear_dtcs = (false, s))) := by
  constructor
  · intro h
    simp [DiagnosticSession.clear_dtcs, h]
  · intro h
    by_cases hc : s.connector.clear_dtcs <;>
      simp [DiagnosticSession.clear_dtcs, h, hc]

/-- Witness for C6: an inactive session carrying a DTC (kept), an
active session over a connected connector (cleared), and an active
session whose connector dropped the connection (unchanged). -/
theorem claim_C6_clear_dtcs_witness :
    (({ connector := { connected := true },
        dtcs := fixtureDtcs 1 } : DiagnosticSession).clear_dtcs =
      (false, { connector := { connected := true },
                dtcs := fixtureDtcs 1 })) ∧
    (({ connector := { connected := true }, session_active := true,
        dtcs := fixtureDtcs 1 } : DiagnosticSession).clear_dtcs =
      (true, { connector := { connected := true }, session_active := true,
               dtcs := [] })) ∧
    (({ connector := {}, session_active := true,
        dtcs := fixtureDtcs 1 } : DiagnosticSession).clear_dtcs =
      (false, { connector := {}, session_active := true,
                dtcs := fixtureDtcs 1 })) := by
  refine ⟨?_, ?_, ?_⟩
  · exact (claim_C6_clear_dtcs
      { connector := { connected := true }, dtcs := fixtureDtcs 1 }).1 rfl
  · exact ((claim_C6_clear_dtcs
      { connector := { connected := true }, session_active := true,
        dtcs := fixtureDtcs 1 }).2 rfl).2.1 rfl
  · exact ((claim_C6_clear_dtcs
      { connector := {}, session_active := true,
        dtcs := fixtureDtcs 1 }).2 rfl).2.2 rfl

/-- C9: while connected (with a stored handle), `send_command cmd`
appends `cmd` followed by a carriage return to the channel's write log;
the ELM327 variant then reads characters one at a time up to the `'>'`
prompt (assumed to arrive; the prompt itself is excluded) and returns
the accumulated text stripped of surrounding whitespace, while the STN
variant reads a single line (up to and including the newline) and
returns it stripped. -/
theorem claim_C9_send_command_framing (a : ELM327Adapter)
    (st : STNAdapter) (conn connS : SerialPort) (cmd : String)
    (ha : a.connected = true) (hconn : a.connection = some conn)
    (hprompt : '>' ∈ conn.input)
    (hs : st.connected = true) (hconnS : st.connection = some connS) :
    a.send_command cmd =
      .ok (pyStrip (String.mk (conn.input.takeWhile notPromptChar)))
        { a with connection := some { conn with
            written := conn.written ++ [cmd ++ "\r"],
            input := (conn.input.dropWhile notPromptChar).tail } } ∧
    st.send_command cmd =
      .ok (pyStrip (String.mk (serialReadline connS.input).1))
        { st with connection := some { connS with
            written := connS.written ++ [cmd ++ "\r"],
            input := (serialReadline connS.input).2 } } := by
  constructor
  · simp [ELM327Adapter.send_command, ha, hconn,
      readUntilPrompt_of_mem hprompt]
  · simp [STNAdapter.send_command, hs, hconnS]

/-- Witness for C9: a device that echoes `"OK\x5cr\x5cr>"` to an ELM327
adapter and `" STN2100\x5cn"` to an STN adapter. -/
theorem claim_C9_send_command_framing_witness :
    ({ port := "COM1", baudrate := 38400, connected := true,
       connection := some { input := ['O', 'K', '\r', '\r', '>'] } } :
        ELM327Adapter).send_command "ATZ" =
      .ok "OK"
        { port := "COM1", baudrate := 38400, connected := true,
          connection := some { input := [], written := ["ATZ\r"] } } ∧
    ({ port := "COM2", baudrate := 115200, connected := true,
       connection := some { input := [' ', 'S', 'T', 'N', '\n'] } } :
        STNAdapter).send_command "ATZ" =
      .ok "STN"
        { port := "COM2", baudrate := 115200, connected := true,
          connection := some { input := [], written := ["ATZ\r"] } } := by
  have h := claim_C9_send_command_framing
    { port := "COM1", baudrate := 38400, connected := true,
      connection := some { input := ['O', 'K', '\r', '\r', '>'] } }
    { port := "COM2", baudrate := 115200, connected := true,
      connection := some { input := [' ', 'S', 'T', 'N', '\n'] } }
    { input := ['O', 'K', '\r', '\r', '>'] }
    { input := [' ', 'S', 'T', 'N', '\n'] }
    "ATZ" rfl rfl (by decide) rfl rfl
  exact ⟨h.1.trans (by decide), h.2.trans (by decide)⟩

/-- Counterexample to C7 as stated: a `Config` whose adapter type is
the empty string does not survive the save/load round trip, because the
loader coerces falsy stored values back to the defaults
(`adapter_data.get('type') or 'ELM327'`), so the reloaded adapter type
is `"ELM327"`. -/
theorem claim_C7_counterexample :
    (({ adapter := { type := "" } } : Config).load
        (some ({ adapter := { type := "" } } : Config).save)) ≠
      ({ adapter := { type := "" } } : Config) := by
  decide

/-- C7 amended: the save/load round trip reproduces identical adapter,
logging and forscan field values (into any starting configuration, with
no environment overrides applied) provided every plain string field is
non-empty and neither optional field holds the empty string — the
loader sends falsy stored values back to their defaults, so such
configurations are the exception the counterexample exhibits. -/
theorem claim_C7_roundtrip_amended (cfg c0 : Config)
    (ht : cfg.adapter.type ≠ "") (hp : cfg.adapter.port ≠ "")
    (hl : cfg.logging.level ≠ "") (hf : cfg.logging.format ≠ "")
    (hfile : cfg.logging.file ≠ some "")
    (hexe : cfg.forscan.executable_path ≠ some "")
    (hd : cfg.forscan.data_dir ≠ "") (hc : cfg.forscan.config_dir ≠ "") :
    c0.load (some cfg.save) = cfg := by
  obtain ⟨⟨t, p, b, tm⟩, ⟨lv, fm, fl⟩, ⟨ep, dd, cd, ac⟩⟩ := cfg
  simp only [ne_eq] at ht hp hl hf hd hc
  rcases fl with _ | fls <;> rcases ep with _ | eps <;>
  · first
    | (simp only [Option.ne_none_iff_exists] at *) | skip
    simp only [ne_eq, Option.some.injEq] at hfile hexe
    simp [Config.load, Config.save, loadAdapterSection,
      loadLoggingSection, loadForscanSection, YamlSection.getOr,
      YamlSection.get, List.find?, Config.safe_int, Config.safe_float,
      Config.safe_bool, YVal.pyInt, YVal.pyFloat, YVal.truthy,
      YVal.pyStr, optStrVal, ht, hp, hl, hf, hd, hc, hfile, hexe]

/-- Witness for the amended C7 at the all-defaults configuration. -/
theorem claim_C7_roundtrip_amended_witness :
    ({} : Config).load (some ({} : Config).save) = ({} : Config) :=
  claim_C7_roundtrip_amended {} {} (by decide) (by decide) (by decide)
    (by decide) (by decide) (by decide) (by decide) (by decide)

/-- An environment-override step whose update function leaves the
adapter type alone leaves the adapter type of the result alone. -/
theorem envOverride_adapter_type (o : Option String)
    (f : String → Config → Config)
    (hf : ∀ s c, (f s c).adapter.type = c.adapter.type) (c : Config) :
    (envOverride o f c).adapter.type = c.adapter.type := by
  cases o with
  | none => rfl
  | some s =>
      simp only [envOverride]
      split
      · exact hf s c
      · rfl

/-- C8: whenever the adapter-type environment variable is set to a
non-empty value, the constructed configuration's `adapter.type` equals
that value, whatever the YAML file said and whatever the built-in
default is — the override is applied after the file is loaded, and no
later override touches the adapter type. -/
theorem claim_C8_env_override_precedence (file : Option YamlFile)
    (env : Env) (v : String)
    (hv : env.adapterTypeVar = some v) (hne : v ≠ "") :
    (Config.construct file env).adapter.type = v := by
  unfold Config.construct Config.apply_env_overrides
  rw [envOverride_adapter_type, envOverride_adapter_type,
    envOverride_adapter_type, envOverride_adapter_type,
    envOverride_adapter_type, envOverride_adapter_type,
    envOverride_adapter_type]
  · rw [hv]
    simp [envOverride, hne]
  all_goals intro s c
  all_goals try rfl
  cases h : s.toInt? <;> rfl

/-- Witness for C8: the environment value `"STN"` wins over both the
file-loaded `"J2534"` and the built-in default `"ELM327"`. -/
theorem claim_C8_env_override_precedence_witness :
    (Config.construct
        (some { adapter := some [("type", .str "J2534")] })
        { adapterTypeVar := some "STN" }).adapter.type = "STN" :=
  claim_C8_env_override_precedence
    (some { adapter := some [("type", .str "J2534")] })
    { adapterTypeVar := some "STN" } "STN" rfl (by decide)
